import Mathlib

/-!
Verification development for the AI choose-your-own-adventure game server.

The definitions below are a shallow embedding of the Python sources:
  * `main.py` — the `QdrantChatMessageHistory` session store, the
    character-creation state machine, `format_chat_history`, and the main
    CLI game loop with its end-of-game check;
  * `api_server.py` — `get_story_by_id` lookup, the `create_session`
    handler's constructor call, `parse_choices_from_response`, and the
    JSON / balanced-brace / numbered-line response-parsing cascade of
    `send_message`.

Modelling conventions:
  * The Qdrant collection is modelled as a list of points in insertion
    order (`scroll` returns stored points in that order; the `limit`
    argument of each `scroll` call is modelled by `List.take`).
  * Each store method wraps its backend calls in `try/except`; the
    boolean `fail` argument of an operation models "the backend raised
    inside the `try` block", and the operation returns the value of the
    corresponding `except` branch in that case.
  * Python character classes `\s` / `\d` and `str.strip()` are modelled
    over their ASCII parts (all inputs appearing in the theorems are
    ASCII).
  * Timestamps (`time.time()`) are modelled as natural numbers.
-/

/-- ASCII part of Python whitespace (`\s`, `str.strip()`): space, tab,
newline, carriage return, vertical tab, form feed. -/
def isPyWs (c : Char) : Bool :=
  let n := c.toNat
  n == 32 || (9 ≤ n && n ≤ 13)

/-- ASCII part of `\d`. -/
def isPyDigit (c : Char) : Bool :=
  '0' ≤ c && c ≤ '9'

/-- Python `str.strip()`: remove leading and trailing whitespace. -/
def pyStrip (s : String) : String :=
  String.mk (((s.toList.dropWhile isPyWs).reverse.dropWhile isPyWs).reverse)

/-- Python `sep.join(parts)`. -/
def pyJoin (sep : String) : List String → String
  | [] => ""
  | [p] => p
  | p :: ps => p ++ sep ++ pyJoin sep ps

/-- `leadsWith n h` : `n` is a prefix of the character list `h`. -/
def leadsWith : List Char → List Char → Bool
  | [], _ => true
  | x :: xs, ys =>
    match ys with
    | [] => false
    | y :: yt => x == y && leadsWith xs yt

/-- `occursIn n h` : `n` occurs as a contiguous sublist of `h`. -/
def occursIn (n : List Char) : List Char → Bool
  | [] => n.isEmpty
  | c :: t => leadsWith n (c :: t) || occursIn n t

/-- Python's `needle in haystack` substring test on strings. -/
def pyInStr (needle haystack : String) : Bool :=
  occursIn needle.toList haystack.toList

/-- Chat messages as used by the game (`HumanMessage` / `AIMessage`). -/
inductive Msg where
  | human (content : String)
  | ai (content : String)
deriving DecidableEq

/-- One Qdrant point's payload, as written by the store methods of
`QdrantChatMessageHistory` (`main.py`).  Optional fields model payload
keys that are only present on some record kinds. -/
structure QPoint where
  session_id : String
  message : String
  typ : String
  timestamp : Nat
  character_name : Option String := none
  choice_type : Option String := none
  choice : Option String := none
  story_id : Option String := none
deriving DecidableEq

/-- The session's Qdrant collection, in insertion order. -/
abbrev Store := List QPoint

/-- `QdrantChatMessageHistory.add_message` (main.py:102): upsert a point
with payload `type` = "human" for a `HumanMessage` and "ai" otherwise.
On a backend error the point is not stored. -/
def add_message (fail : Bool) (store : Store) (sid : String) (m : Msg) (t : Nat) : Store :=
  if fail then store
  else
    match m with
    | Msg.human c => store ++ [{ session_id := sid, message := c, typ := "human", timestamp := t }]
    | Msg.ai c => store ++ [{ session_id := sid, message := c, typ := "ai", timestamp := t }]

/-- `QdrantChatMessageHistory.store_character_name` (main.py:131). -/
def store_character_name (fail : Bool) (store : Store) (sid : String) (nm : String) (t : Nat) : Store :=
  if fail then store
  else store ++ [{ session_id := sid, message := "Character name: " ++ nm, typ := "metadata",
                   timestamp := t, character_name := some nm }]

/-- `QdrantChatMessageHistory.store_story_selection` (main.py:156). -/
def store_story_selection (fail : Bool) (store : Store) (sid : String)
    (story_id story_name : String) (t : Nat) : Store :=
  if fail then store
  else store ++ [{ session_id := sid, message := "Selected story: " ++ story_name,
                   typ := "story_metadata", timestamp := t, story_id := some story_id }]

/-- `QdrantChatMessageHistory.store_character_choice` (main.py:243). -/
def store_character_choice (fail : Bool) (store : Store) (sid : String)
    (ct c : String) (t : Nat) : Store :=
  if fail then store
  else store ++ [{ session_id := sid, message := "Selected " ++ ct ++ ": " ++ c,
                   typ := "character_choice", timestamp := t, choice_type := some ct,
                   choice := some c }]

/-- `QdrantChatMessageHistory.get_character_name` (main.py:181): scroll
(limit 10) for `type = "metadata"` points of this session and return the
first `character_name` payload value; default "Elara" when none is found
or the backend errors. -/
def get_character_name (fail : Bool) (store : Store) (sid : String) : String :=
  if fail then "Elara"
  else
    let pts := (store.filter (fun p => p.session_id == sid && p.typ == "metadata")).take 10
    match pts.findSome? (fun p => p.character_name) with
    | some nm => nm
    | none => "Elara"

/-- `QdrantChatMessageHistory.get_story_selection` (main.py:212). -/
def get_story_selection (fail : Bool) (store : Store) (sid : String) : Option String :=
  if fail then none
  else
    let pts := (store.filter (fun p => p.session_id == sid && p.typ == "story_metadata")).take 10
    pts.findSome? (fun p => p.story_id)

/-- Python dict assignment `d[k] = v` on an insertion-ordered dict. -/
def dictInsert (d : List (String × String)) (k v : String) : List (String × String) :=
  if d.any (fun kv => kv.1 == k) then
    d.map (fun kv => if kv.1 == k then (k, v) else kv)
  else d ++ [(k, v)]

/-- Key-membership in the dict. -/
def dictHas (d : List (String × String)) (k : String) : Bool :=
  d.any (fun kv => kv.1 == k)

/-- `QdrantChatMessageHistory.get_character_choices` (main.py:268): scroll
(limit 10) for `type = "character_choice"` points and build the
`choice_type -> choice` dict; empty dict on a backend error. -/
def get_character_choices (fail : Bool) (store : Store) (sid : String) : List (String × String) :=
  if fail then []
  else
    let pts := (store.filter (fun p => p.session_id == sid && p.typ == "character_choice")).take 10
    pts.foldl (fun d p =>
      match p.choice_type, p.choice with
      | some ct, some c => dictInsert d ct c
      | _, _ => d) []

/-- The if-chain of `get_character_creation_state` (main.py:305-312) over
the choices dict. -/
def creation_state_of (choices : List (String × String)) : String :=
  if ¬ dictHas choices "weapon" then "weapon"
  else if ¬ dictHas choices "skill" then "skill"
  else if ¬ dictHas choices "tool" then "tool"
  else "complete"

/-- `QdrantChatMessageHistory.get_character_creation_state` (main.py:301):
the if-chain applied to `get_character_choices()`. -/
def get_character_creation_state (fail : Bool) (store : Store) (sid : String) : String :=
  creation_state_of (get_character_choices fail store sid)

/-- `QdrantChatMessageHistory.is_character_creation_complete` (main.py:314). -/
def is_character_creation_complete (fail : Bool) (store : Store) (sid : String) : Bool :=
  get_character_creation_state fail store sid == "complete"

/-- Stable insertion into a timestamp-sorted list: an element is placed
after all already-placed elements with an equal key, matching the
stability of Python's `sorted`. -/
def insertByTs (p : QPoint) : List QPoint → List QPoint
  | [] => [p]
  | q :: qs => if p.timestamp ≤ q.timestamp then p :: q :: qs else q :: insertByTs p qs

/-- Python `sorted(points, key=lambda x: x.payload["timestamp"])` (stable). -/
def sortByTs : List QPoint → List QPoint
  | [] => []
  | p :: ps => insertByTs p (sortByTs ps)

/-- The `messages` property (main.py:338): scroll (limit 1000) all points
of this session, sort by timestamp, and classify each point as a
`HumanMessage` when its `type` payload is "human" and as an `AIMessage`
otherwise; empty list on a backend error. -/
def messages (fail : Bool) (store : Store) (sid : String) : List Msg :=
  if fail then []
  else
    let pts := (store.filter (fun p => p.session_id == sid)).take 1000
    (sortByTs pts).map (fun p =>
      if p.typ == "human" then Msg.human p.message else Msg.ai p.message)

/-- `QdrantChatMessageHistory.has_existing_messages` (main.py:374). -/
def has_existing_messages (fail : Bool) (store : Store) (sid : String) : Bool :=
  decide (0 < (messages fail store sid).length)

/-- Tag one message the way `format_chat_history` prints it. -/
def tagMsg : Msg → String
  | Msg.human c => "Human: " ++ c
  | Msg.ai c => "AI: " ++ c

/-- `format_chat_history` (main.py:864): "No previous conversation." for
an empty history, otherwise the newline-join of the tagged last 10
messages (`messages[-10:]`, modelled as `drop (length - 10)`). -/
def format_chat_history (msgs : List Msg) : String :=
  if msgs = [] then "No previous conversation."
  else pyJoin "\n" ((msgs.drop (msgs.length - 10)).map (fun m =>
    match m with
    | Msg.human c => "Human: " ++ c
    | Msg.ai c => "AI: " ++ c))

/-- A turn is one human input plus one ai response; the code counts
player turns as the number of human messages (main.py:403). -/
def numTurns (msgs : List Msg) : Nat :=
  (msgs.filter (fun m => match m with | Msg.human _ => true | Msg.ai _ => false)).length

/-- One iteration of the CLI main loop (main.py:916-936): append the
player's input as a human message unless it is the synthetic "start" /
"continue" choice, append the model response as an ai message, and end
the session exactly when the response contains the substring "The End.". -/
def mainLoopIteration (store : Store) (sid choice response : String) (t1 t2 : Nat) :
    Store × Bool :=
  let s1 := if choice == "start" || choice == "continue" then store
            else add_message false store sid (Msg.human choice) t1
  let s2 := add_message false s1 sid (Msg.ai response) t2
  (s2, pyInStr "The End." response)

/-!  Numbered-line extraction (`parse_choices_from_response`,
api_server.py:486).  The Python code runs `re.findall` and `re.sub` with
the pattern `\n\d+\.\s*([^\n]+)`; both are modelled by one left-to-right
non-overlapping scan that returns the captured groups together with the
unmatched residue. -/

/-- Greedy `[^\n]+` at the current position: the maximal nonempty run of
non-newline characters, with the remaining input. -/
def nonNlPlus (cs : List Char) : Option (List Char × List Char) :=
  match cs with
  | [] => none
  | c :: _ =>
    if c == '\n' then none
    else some (cs.takeWhile (fun x => ¬ x == '\n'), cs.dropWhile (fun x => ¬ x == '\n'))

/-- Backtracking over the greedy `\s*` before `[^\n]+`: try consuming
`n` whitespace characters, longest first (regex-engine order). -/
def wsBacktrack (cs : List Char) : Nat → Option (List Char × List Char)
  | 0 => nonNlPlus cs
  | n + 1 => (nonNlPlus (cs.drop (n + 1))).orElse (fun _ => wsBacktrack cs n)

/-- Match `\n\d+\.\s*([^\n]+)` at the head of `cs`; on success return the
captured group and the input after the whole match. -/
def matchChoiceAt (cs : List Char) : Option (List Char × List Char) :=
  match cs with
  | '\n' :: cs1 =>
    let ds := cs1.takeWhile isPyDigit
    if ds.isEmpty then none
    else
      match cs1.drop ds.length with
      | '.' :: cs2 => wsBacktrack cs2 (cs2.takeWhile isPyWs).length
      | _ => none
  | _ => none

/-- Left-to-right non-overlapping scan: groups of all matches plus the
residue with the matched spans removed (the fuel is the input length; a
match always consumes at least one character). -/
def scanChoices : Nat → List Char → List (List Char) × List Char
  | 0, cs => ([], cs)
  | fuel + 1, cs =>
    match matchChoiceAt cs with
    | some (g, rest) =>
      let (gs, res) := scanChoices fuel rest
      (g :: gs, res)
    | none =>
      match cs with
      | [] => ([], [])
      | c :: rest =>
        let (gs, res) := scanChoices fuel rest
        (gs, c :: res)

/-- `parse_choices_from_response` (api_server.py:486): when the pattern
matches, return the stripped residue and the stripped groups; otherwise
return the content unchanged with no choices. -/
def parse_choices_from_response (content : String) : String × List String :=
  let (gs, res) := scanChoices content.toList.length content.toList
  if gs.isEmpty then (content, [])
  else (pyStrip (String.mk res), gs.map (fun g => pyStrip (String.mk g)))

/-!  Fenced-code-block extraction (api_server.py:706).  The Python code
runs `re.search` with the DOTALL pattern

    ```(?:json)?\s*\n?({.*?})\s*\n?```

Below is a backtracking matcher for exactly this pattern, written in
continuation-passing style so that alternatives are tried in the same
depth-first order as the regex engine: optional literals and `\s*` are
greedy (longest first), `{.*?}` is lazy (shortest first), and the search
returns the match at the leftmost possible start position. -/

def lbrace : Char := '\x7b'

def rbrace : Char := '\x7d'

/-- Match a literal character sequence, then continue. -/
def litK {α : Type} : List Char → List Char → (List Char → Option α) → Option α
  | [], cs, k => k cs
  | _ :: _, [], _ => none
  | l :: ls, c :: cs, k => if l == c then litK ls cs k else none

/-- Greedy optional literal "json": try consuming it first. -/
def optJsonK {α : Type} (cs : List Char) (k : List Char → Option α) : Option α :=
  (litK "json".toList cs k).orElse (fun _ => k cs)

/-- Greedy `\s*` with backtracking: try the longest whitespace prefix
first, then shorter ones. -/
def wsStarGo {α : Type} (cs : List Char) (k : List Char → Option α) : Nat → Option α
  | 0 => k cs
  | n + 1 => (k (cs.drop (n + 1))).orElse (fun _ => wsStarGo cs k n)

def wsStarK {α : Type} (cs : List Char) (k : List Char → Option α) : Option α :=
  wsStarGo cs k (cs.takeWhile isPyWs).length

/-- Greedy `\n?`: try consuming a newline first. -/
def nlOptK {α : Type} (cs : List Char) (k : List Char → Option α) : Option α :=
  match cs with
  | '\n' :: rest => (k rest).orElse (fun _ => k cs)
  | _ => k cs

/-- Lazy `.*?` (DOTALL): try the empty extent first, then extend one
character at a time; the consumed characters are accumulated reversed. -/
def lazyScanK {α : Type} (cs : List Char) (acc : List Char)
    (k : List Char → List Char → Option α) : Option α :=
  (k cs acc).orElse (fun _ =>
    match cs with
    | [] => none
    | c :: rest => lazyScanK rest (c :: acc) k)

def fenceChars : List Char := "```".toList

/-- Match the whole fence pattern at the head of `cs`, returning the
captured `{...}` group. -/
def matchFenceAt (cs : List Char) : Option (List Char) :=
  litK fenceChars cs (fun cs1 =>
  optJsonK cs1 (fun cs2 =>
  wsStarK cs2 (fun cs3 =>
  nlOptK cs3 (fun cs4 =>
    match cs4 with
    | c :: cs5 =>
      if c == lbrace then
        lazyScanK cs5 [] (fun cs6 inner =>
          match cs6 with
          | d :: cs7 =>
            if d == rbrace then
              wsStarK cs7 (fun cs8 =>
              nlOptK cs8 (fun cs9 =>
              litK fenceChars cs9 (fun _ =>
                some (lbrace :: inner.reverse ++ [rbrace]))))
            else none
          | [] => none)
      else none
    | [] => none))))

/-- `re.search`: leftmost match wins. -/
def searchFence : List Char → Option (List Char)
  | [] => none
  | c :: rest => (matchFenceAt (c :: rest)).orElse (fun _ => searchFence rest)

/-- The `json_match` step of `send_message` (api_server.py:706): the
captured group of the fenced-block pattern, if any. -/
def fencedJsonExtract (content : String) : Option String :=
  (searchFence content.toList).map String.mk

/-- The balanced-brace scan of `send_message` (api_server.py:711-728):
walk the characters keeping a (signed) brace count, remember the index of
the first brace seen at depth 0, and stop at the brace that returns the
count to 0; returns the (start, end) slice bounds. -/
def braceScanAux : List Char → Int → Option Nat → Nat → Option (Nat × Nat)
  | [], _, _, _ => none
  | c :: rest, count, start, idx =>
    if c == lbrace then
      braceScanAux rest (count + 1) (if count == 0 then some idx else start) (idx + 1)
    else if c == rbrace then
      let count2 := count - 1
      match start with
      | some s => if count2 == 0 then some (s, idx + 1) else braceScanAux rest count2 start (idx + 1)
      | none => braceScanAux rest count2 none (idx + 1)
    else braceScanAux rest count start (idx + 1)

/-- `response_content[start_idx:end_idx]` when the scan finds a balanced
`{...}` substring. -/
def braceExtract (content : String) : Option String :=
  match braceScanAux content.toList 0 none 0 with
  | some (s, e) => some (String.mk ((content.toList.drop s).take (e - s)))
  | none => none

/-!  `json.loads` (used at api_server.py:757), modelled as a recursive
descent parser over the JSON grammar: values are null / booleans /
numbers / strings / arrays / objects.  Number values keep their lexeme
(no claim inspects numeric values, and floating point is out of scope).
Duplicate object keys are kept in order; lookups take the last
occurrence, matching Python's dict construction. -/

inductive Json where
  | null
  | bool (b : Bool)
  | num (lexeme : String)
  | str (s : String)
  | arr (items : List Json)
  | obj (fields : List (String × Json))

/-- JSON whitespace between tokens: space, tab, newline, carriage return. -/
def skipJsonWs (cs : List Char) : List Char :=
  cs.dropWhile (fun c => c.toNat == 32 || c.toNat == 9 || c.toNat == 10 || c.toNat == 13)

def hexVal (c : Char) : Option Nat :=
  let n := c.toNat
  if 48 ≤ n && n ≤ 57 then some (n - 48)
  else if 97 ≤ n && n ≤ 102 then some (n - 87)
  else if 65 ≤ n && n ≤ 70 then some (n - 55)
  else none

/-- Body of a JSON string literal (after the opening quote): plain
characters, the single-character escapes, and `\uXXXX` (a lone surrogate
is approximated by `Char.ofNat`'s fallback); unescaped control
characters are rejected as in Python's strict mode. -/
def parseStringBody : Nat → List Char → List Char → Except String (String × List Char)
  | 0, _, _ => Except.error "string fuel exhausted"
  | fuel + 1, acc, cs =>
    match cs with
    | [] => Except.error "Unterminated string"
    | c :: rest =>
      if c == '"' then Except.ok (String.mk acc.reverse, rest)
      else if c == '\\' then
        match rest with
        | [] => Except.error "Unterminated string"
        | e :: rest2 =>
          if e == '"' then parseStringBody fuel ('"' :: acc) rest2
          else if e == '\\' then parseStringBody fuel ('\\' :: acc) rest2
          else if e == '/' then parseStringBody fuel ('/' :: acc) rest2
          else if e == 'b' then parseStringBody fuel ('\x08' :: acc) rest2
          else if e == 'f' then parseStringBody fuel ('\x0c' :: acc) rest2
          else if e == 'n' then parseStringBody fuel ('\n' :: acc) rest2
          else if e == 'r' then parseStringBody fuel ('\r' :: acc) rest2
          else if e == 't' then parseStringBody fuel ('\t' :: acc) rest2
          else if e == 'u' then
            match rest2 with
            | h1 :: h2 :: h3 :: h4 :: rest3 =>
              match hexVal h1, hexVal h2, hexVal h3, hexVal h4 with
              | some a, some b, some c2, some d =>
                parseStringBody fuel (Char.ofNat (((a * 16 + b) * 16 + c2) * 16 + d) :: acc) rest3
              | _, _, _, _ => Except.error "Invalid \\uXXXX escape"
            | _ => Except.error "Invalid \\uXXXX escape"
          else Except.error "Invalid \\escape"
      else if c.toNat < 32 then Except.error "Invalid control character"
      else parseStringBody fuel (c :: acc) rest

/-- Optional fraction part `(\.\d+)?` of a JSON number. -/
def numFrac (acc cs : List Char) : List Char × List Char :=
  match cs with
  | '.' :: r =>
    let ds := r.takeWhile isPyDigit
    if ds.isEmpty then (acc, cs) else (acc ++ '.' :: ds, r.drop ds.length)
  | _ => (acc, cs)

/-- Optional exponent part `([eE][-+]?\d+)?` of a JSON number. -/
def numExp (acc cs : List Char) : List Char × List Char :=
  match cs with
  | e :: r =>
    if e == 'e' || e == 'E' then
      let (sgn, r2) := match r with
        | s :: r2 => if s == '+' || s == '-' then ([s], r2) else ([], r)
        | [] => ([], r)
      let ds := r2.takeWhile isPyDigit
      if ds.isEmpty then (acc, cs) else (acc ++ e :: sgn ++ ds, r2.drop ds.length)
    else (acc, cs)
  | [] => (acc, cs)

/-- JSON number per Python's `NUMBER_RE`:
`(-?(?:0|[1-9]\d*))(\.\d+)?([eE][-+]?\d+)?`; the lexeme is kept. -/
def parseNumber (cs : List Char) : Except String (String × List Char) :=
  let (sgn, cs1) := match cs with
    | '-' :: r => (['-'], r)
    | _ => ([], cs)
  match cs1 with
  | '0' :: r =>
    let (acc2, r2) := numFrac (sgn ++ ['0']) r
    let (acc3, r3) := numExp acc2 r2
    Except.ok (String.mk acc3, r3)
  | c :: r =>
    if isPyDigit c && ¬ c == '0' then
      let ds := r.takeWhile isPyDigit
      let (acc2, r2) := numFrac (sgn ++ c :: ds) (r.drop ds.length)
      let (acc3, r3) := numExp acc2 r2
      Except.ok (String.mk acc3, r3)
    else Except.error "Expecting value"
  | [] => Except.error "Expecting value"

mutual

/-- One JSON value at the head of `cs` (leading whitespace already
skipped); returns the value and the remaining input. -/
def parseValue : Nat → List Char → Except String (Json × List Char)
  | 0, _ => Except.error "value fuel exhausted"
  | fuel + 1, cs =>
    match cs with
    | [] => Except.error "Expecting value"
    | c :: rest =>
      if c == lbrace then
        match skipJsonWs rest with
        | d :: r2 =>
          if d == rbrace then Except.ok (Json.obj [], r2)
          else parseMembers fuel (skipJsonWs rest) []
        | [] => Except.error "Expecting property name enclosed in double quotes"
      else if c == '[' then
        match skipJsonWs rest with
        | d :: r2 =>
          if d == ']' then Except.ok (Json.arr [], r2)
          else parseItems fuel (skipJsonWs rest) []
        | [] => Except.error "Expecting value"
      else if c == '"' then
        match parseStringBody (rest.length + 1) [] rest with
        | Except.ok (s, r2) => Except.ok (Json.str s, r2)
        | Except.error e => Except.error e
      else if leadsWith "true".toList cs then Except.ok (Json.bool true, cs.drop 4)
      else if leadsWith "false".toList cs then Except.ok (Json.bool false, cs.drop 5)
      else if leadsWith "null".toList cs then Except.ok (Json.null, cs.drop 4)
      else
        match parseNumber cs with
        | Except.ok (lx, r2) => Except.ok (Json.num lx, r2)
        | Except.error e => Except.error e

/-- Members of a JSON object after `{` (and not the empty object). -/
def parseMembers : Nat → List Char → List (String × Json) →
    Except String (Json × List Char)
  | 0, _, _ => Except.error "object fuel exhausted"
  | fuel + 1, cs, acc =>
    match cs with
    | '"' :: r =>
      match parseStringBody (r.length + 1) [] r with
      | Except.error e => Except.error e
      | Except.ok (key, cs2) =>
        match skipJsonWs cs2 with
        | ':' :: cs4 =>
          match parseValue fuel (skipJsonWs cs4) with
          | Except.error e => Except.error e
          | Except.ok (v, cs5) =>
            match skipJsonWs cs5 with
            | ',' :: cs7 => parseMembers fuel (skipJsonWs cs7) (acc ++ [(key, v)])
            | d :: cs7 =>
              if d == rbrace then Except.ok (Json.obj (acc ++ [(key, v)]), cs7)
              else Except.error "Expecting ',' delimiter"
            | [] => Except.error "Expecting ',' delimiter"
        | _ => Except.error "Expecting ':' delimiter"
    | _ => Except.error "Expecting property name enclosed in double quotes"

/-- Items of a JSON array after `[` (and not the empty array). -/
def parseItems : Nat → List Char → List Json → Except String (Json × List Char)
  | 0, _, _ => Except.error "array fuel exhausted"
  | fuel + 1, cs, acc =>
    match parseValue fuel cs with
    | Except.error e => Except.error e
    | Except.ok (v, cs2) =>
      match skipJsonWs cs2 with
      | ',' :: cs3 => parseItems fuel (skipJsonWs cs3) (acc ++ [v])
      | ']' :: cs3 => Except.ok (Json.arr (acc ++ [v]), cs3)
      | _ => Except.error "Expecting ',' delimiter"

end

/-- `json.loads`: parse one value surrounded by optional whitespace;
anything left over is an error ("Extra data"). -/
def json_loads (s : String) : Except String Json :=
  let cs := skipJsonWs s.toList
  match parseValue (2 * cs.length + 2) cs with
  | Except.error e => Except.error e
  | Except.ok (j, rest) =>
    if (skipJsonWs rest).isEmpty then Except.ok j else Except.error "Extra data"

def exceptIsOk {ε α : Type} : Except ε α → Bool
  | Except.ok _ => true
  | Except.error _ => false

/-- Last-occurrence lookup in parsed object fields (Python dict
construction keeps the last value for duplicate keys). -/
def jget (fields : List (String × Json)) (k : String) : Option Json :=
  ((fields.filter (fun kv => kv.1 == k)).getLast?).map (fun kv => kv.2)

/-- Distinct keys in first-occurrence order (Python dict iteration). -/
def uniqKeys (fields : List (String × Json)) : List String :=
  fields.foldl (fun acc kv => if acc.contains kv.1 then acc else acc ++ [kv.1]) []

/-- Python `str()` / f-string rendering of a JSON-derived value.  The
string case is exact; the remaining cases approximate Python's `repr`
and are not exercised by any theorem below. -/
def pyFStr : Json → String
  | Json.str s => s
  | Json.num lx => lx
  | Json.bool b => if b then "True" else "False"
  | Json.null => "None"
  | Json.arr _ => "[...]"
  | Json.obj _ => "\x7b...\x7d"

/-- One entry of the parsed `choices` array (api_server.py:766-771): a
dict with `name` and `description` becomes `**name** description`, and
anything else is rendered with `str()`. -/
def formatChoice (c : Json) : String :=
  match c with
  | Json.obj fields =>
    if (jget fields "name").isSome && (jget fields "description").isSome then
      "**" ++ pyFStr ((jget fields "name").getD Json.null) ++ "** " ++
        pyFStr ((jget fields "description").getD Json.null)
    else pyFStr c
  | c => pyFStr c

/-- `for choice_obj in choices_data` over the `choices` field: a list is
iterated directly; a string yields its characters and a dict its keys
(each then rendered with `str()` since it is not a name/description
dict); other values make `len(choices_data)` raise an uncaught
`TypeError`. -/
def choiceStrings : Json → Except String (List String)
  | Json.arr items => Except.ok (items.map formatChoice)
  | Json.str s => Except.ok (s.toList.map (fun ch => String.mk [ch]))
  | Json.obj fields => Except.ok (uniqKeys fields)
  | _ => Except.error "TypeError: object has no len()"

/-- Use of the successfully parsed JSON (api_server.py:757-771):
`story = parsed.get('story','')`, `choices = parsed.get('choices',[])`,
then the choice formatting above.  A parsed value that is not a dict
makes `.get` raise `AttributeError`, which the handler catches by
falling back to numbered-line extraction; a non-string `story` leads to
an uncaught error (modelled as `Except.error`, surfaced as HTTP 500). -/
def extractParsed (content : String) (j : Json) : Except String (String × List String) :=
  match j with
  | Json.obj fields =>
    match (jget fields "story").getD (Json.str "") with
    | Json.str s =>
      match choiceStrings ((jget fields "choices").getD (Json.arr [])) with
      | Except.ok cl => Except.ok (s, cl)
      | Except.error e => Except.error e
    | _ => Except.error "TypeError: non-string story content"
  | _ => Except.ok (parse_choices_from_response content)

/-- The shared tail of both extraction paths of `send_message`: parse
`json_str`; on `json.JSONDecodeError` fall back to
`parse_choices_from_response` on the whole (stripped) response. -/
def jsonStage (jsonStr content : String) : Except String (String × List String) :=
  match json_loads jsonStr with
  | Except.error _ => Except.ok (parse_choices_from_response content)
  | Except.ok j => extractParsed content j

/-- The response-parsing section of `send_message` (api_server.py:699-781):
strip the raw model output, try the fenced-block regex, then the
balanced-brace scan, then fall back to numbered-line extraction; a
`json_str` found by either extraction is JSON-parsed with fallback on
decode errors.  The result is the `(story_content, choices)` pair used
for the stored ai message and the HTTP response; `Except.error` models
an uncaught exception (HTTP 500). -/
def send_message_parse (raw : String) : Except String (String × List String) :=
  let content := pyStrip raw
  match fencedJsonExtract content with
  | some jsonStr => jsonStage jsonStr content
  | none =>
    match braceExtract content with
    | some jsonStr => jsonStage jsonStr content
    | none => Except.ok (parse_choices_from_response content)

/-!  Session creation (`create_session`, api_server.py:273-403). -/

/-- A story record as loaded from `stories.json`; `get_story_by_id`
compares `story.get('id')` (absent key gives `None`) with the requested
id. -/
structure StoryRec where
  id : Option String
  name : String
deriving DecidableEq

/-- `StoryManager.get_story_by_id` (main.py:50): first story whose `id`
field equals the requested id, else `None`. -/
def get_story_by_id (stories : List StoryRec) (story_id : String) : Option StoryRec :=
  stories.find? (fun st => st.id == some story_id)

/-- The keyword parameters accepted by
`QdrantChatMessageHistory.__init__` (main.py:78):
`(self, session_id, qdrant_client, collection_name=None)`. -/
def qdrant_history_init_params : List String :=
  ["session_id", "qdrant_client", "collection_name"]

/-- The parameters of `__init__` that have no default. -/
def qdrant_history_init_required : List String :=
  ["session_id", "qdrant_client"]

/-- Python keyword-argument binding for the constructor call: an
unexpected or missing keyword raises `TypeError`. -/
def qdrantHistoryInitCall (kwargs : List String) : Except String Unit :=
  match kwargs.find? (fun k => ¬ qdrant_history_init_params.contains k) with
  | some k =>
    Except.error ("QdrantChatMessageHistory.__init__() got an unexpected keyword argument '"
      ++ k ++ "'")
  | none =>
    if qdrant_history_init_required.all (fun k => kwargs.contains k) then Except.ok ()
    else Except.error "QdrantChatMessageHistory.__init__() missing required argument"

/-- The keyword arguments `create_session` passes to the constructor
(api_server.py:300-305): note `embeddings_model`. -/
def create_session_kwargs : List String :=
  ["session_id", "qdrant_client", "embeddings_model", "collection_name"]

/-- An HTTP-level handler outcome. -/
inductive ApiResp (α : Type) where
  | ok (value : α)
  | httpError (status : Nat) (detail : String)
deriving DecidableEq

/-- The `create_session` handler (api_server.py:273-403) up to its
story-independent response body: look up the story (404 when absent),
construct the `QdrantChatMessageHistory` for the session dict, and only
then register the session id in `active_sessions`; any non-HTTP
exception is converted to HTTP 500 with the exception text.  Returns the
handler outcome together with the resulting `active_sessions` keys. -/
def create_session (stories : List StoryRec) (sessions : List String)
    (storyId newSessionId : String) : ApiResp Unit × List String :=
  match get_story_by_id stories storyId with
  | none => (ApiResp.httpError 404 "Story not found", sessions)
  | some _ =>
    match qdrantHistoryInitCall create_session_kwargs with
    | Except.error e =>
      (ApiResp.httpError 500 ("Failed to create session: " ++ e), sessions)
    | Except.ok _ => (ApiResp.ok (), sessions ++ [newSessionId])

/-!  Theorems. -/

theorem leadsWith_iff (n : List Char) : ∀ h : List Char,
    leadsWith n h = true ↔ ∃ t, h = n ++ t := by
  induction n with
  | nil => intro h; simp [leadsWith]
  | cons a as ih =>
    intro h
    cases h with
    | nil =>
      simp [leadsWith]
    | cons b bs =>
      simp only [leadsWith, Bool.and_eq_true, beq_iff_eq, ih, List.cons_append,
        List.cons.injEq]
      constructor
      · rintro ⟨hab, t, ht⟩
        exact ⟨t, hab.symm, ht⟩
      · rintro ⟨t, hba, ht⟩
        exact ⟨hba.symm, t, ht⟩

theorem occursIn_iff (n : List Char) : ∀ h : List Char,
    occursIn n h = true ↔ ∃ s t, h = s ++ n ++ t := by
  intro h
  induction h with
  | nil =>
    simp only [occursIn, List.isEmpty_iff]
    constructor
    · rintro rfl; exact ⟨[], [], rfl⟩
    · rintro ⟨s, t, ht⟩
      rcases List.append_eq_nil.mp ht.symm with ⟨h1, h2⟩
      rcases List.append_eq_nil.mp h1 with ⟨_, h4⟩
      exact h4
  | cons c cs ih =>
    simp only [occursIn, Bool.or_eq_true, leadsWith_iff, ih]
    constructor
    · rintro (⟨t, ht⟩ | ⟨s, t, ht⟩)
      · exact ⟨[], t, by simp [ht]⟩
      · exact ⟨c :: s, t, by simp [ht]⟩
    · rintro ⟨s, t, ht⟩
      cases s with
      | nil => exact Or.inl ⟨t, by simpa using ht⟩
      | cons d ds =>
        rcases List.cons.injEq .. ▸ ht with ⟨_, h2⟩
        exact Or.inr ⟨ds, t, by simpa using h2⟩

theorem pyInStr_iff (needle haystack : String) :
    pyInStr needle haystack = true
      ↔ ∃ pre post : String, haystack = pre ++ needle ++ post := by
  unfold pyInStr
  rw [occursIn_iff]
  constructor
  · rintro ⟨s, t, ht⟩
    refine ⟨String.mk s, String.mk t, String.ext ?_⟩
    simpa [String.data_append] using ht
  · rintro ⟨pre, post, hp⟩
    exact ⟨pre.data, post.data, by simpa [String.data_append] using congrArg String.data hp⟩

/-- C1: in the CLI main loop, one iteration ends the session exactly when
the model response contains the substring "The End." anywhere in it; a
response without that substring leaves the session active. -/
theorem C1_end_detection (store : Store) (sid choice response : String) (t1 t2 : Nat) :
    (mainLoopIteration store sid choice response t1 t2).2 = true
      ↔ ∃ pre post : String, response = pre ++ "The End." ++ post :=
  pyInStr_iff "The End." response

/-- C2: for every request whose storyId matches an existing story,
`create_session` hits the `TypeError` from the unexpected
`embeddings_model` keyword argument, returns HTTP 500, and registers no
session. -/
theorem C2_create_session_raises (stories : List StoryRec) (sessions : List String)
    (storyId newSessionId : String) (st : StoryRec)
    (hfound : get_story_by_id stories storyId = some st) :
    (create_session stories sessions storyId newSessionId).1
        = ApiResp.httpError 500
            "Failed to create session: QdrantChatMessageHistory.__init__() got an unexpected keyword argument 'embeddings_model'"
      ∧ (create_session stories sessions storyId newSessionId).2 = sessions := by
  unfold create_session
  rw [hfound]
  exact ⟨rfl, rfl⟩

/-- Witness for C2 at a concrete one-story catalog. -/
theorem C2_create_session_raises_witness :
    (create_session [⟨some "story1", "Story One"⟩] [] "story1" "sess-1").1
        = ApiResp.httpError 500
            "Failed to create session: QdrantChatMessageHistory.__init__() got an unexpected keyword argument 'embeddings_model'"
      ∧ (create_session [⟨some "story1", "Story One"⟩] [] "story1" "sess-1").2 = [] :=
  C2_create_session_raises [⟨some "story1", "Story One"⟩] [] "story1" "sess-1"
    ⟨some "story1", "Story One"⟩ rfl

/-- C5: a fenced JSON code block with one name/description choice parses
to the story text and the single joined display string. -/
theorem C5_fenced_json_parsed :
    send_message_parse
        "```json\n\x7b\"story\":\"S\",\"choices\":[\x7b\"name\":\"X\",\"description\":\"Y\"\x7d]\x7d\n```"
      = Except.ok ("S", ["**X** Y"]) := by
  rfl

/-- C6: numbered-line fallback on plain text returns the stripped
narrative and the choices in order. -/
theorem C6_numbered_line_extraction :
    parse_choices_from_response "Text\n1. A\n2. B\n3. C" = ("Text", ["A", "B", "C"]) := by
  rfl

/-- A concrete alternating history of 6 turns (12 messages). -/
def histTwelve : List Msg :=
  [Msg.human "h1", Msg.ai "a1", Msg.human "h2", Msg.ai "a2", Msg.human "h3", Msg.ai "a3",
   Msg.human "h4", Msg.ai "a4", Msg.human "h5", Msg.ai "a5", Msg.human "h6", Msg.ai "a6"]

/-- Counterexample to C3 as stated: this history has 6 turns, so the
last 10 turns are all of it, yet the formatted chat history omits the
first turn's human message — the code embeds the last 10 *messages*
(`messages[-10:]`), not the last 10 turns. -/
theorem C3_counterexample :
    numTurns histTwelve = 6 ∧ 6 ≤ 10
      ∧ pyInStr "Human: h1" (format_chat_history histTwelve) = false := by
  decide

/-- C3 (amended): the prompt embeds exactly the last 10 messages of the
conversation history (at most 5 turns), tagged and newline-joined. -/
theorem C3_amended_last_ten_messages (msgs : List Msg) (hlen : 10 ≤ msgs.length) :
    format_chat_history msgs
        = pyJoin "\n" ((msgs.drop (msgs.length - 10)).map tagMsg)
      ∧ (msgs.drop (msgs.length - 10)).length = 10 := by
  constructor
  · have hne : msgs ≠ [] := by
      intro he
      rw [he] at hlen
      simp at hlen
    unfold format_chat_history
    rw [if_neg hne]
    exact congrArg (pyJoin "\n") (List.map_congr_left (fun m _ => by cases m <;> rfl))
  · rw [List.length_drop]
    omega

/-- Witness for the amended C3 at the concrete 12-message history. -/
theorem C3_amended_last_ten_messages_witness :
    format_chat_history histTwelve
        = pyJoin "\n" ((histTwelve.drop (histTwelve.length - 10)).map tagMsg)
      ∧ (histTwelve.drop (histTwelve.length - 10)).length = 10 :=
  C3_amended_last_ten_messages histTwelve (by decide)

/-- C4: whenever the fenced-block regex finds a `{...}` group whose
contents fail JSON parsing, `send_message` does not raise: it falls back
to numbered-line extraction over the whole (stripped) response. -/
theorem C4_malformed_json_falls_back (raw j : String)
    (hfence : fencedJsonExtract (pyStrip raw) = some j)
    (hbad : exceptIsOk (json_loads j) = false) :
    send_message_parse raw = Except.ok (parse_choices_from_response (pyStrip raw)) := by
  unfold send_message_parse
  simp only [hfence]
  unfold jsonStage
  cases hj : json_loads j with
  | error e => rfl
  | ok v =>
    rw [hj] at hbad
    simp [exceptIsOk] at hbad

/-- Witness for C4: a fenced block wrapping invalid JSON falls back to
the numbered-line extraction (which here finds no choices). -/
theorem C4_malformed_json_falls_back_witness :
    fencedJsonExtract (pyStrip "Story here.\n```json\n\x7binvalid\x7d\n```")
        = some "\x7binvalid\x7d"
      ∧ send_message_parse "Story here.\n```json\n\x7binvalid\x7d\n```"
        = Except.ok (parse_choices_from_response
            (pyStrip "Story here.\n```json\n\x7binvalid\x7d\n```")) :=
  ⟨rfl, C4_malformed_json_falls_back "Story here.\n```json\n\x7binvalid\x7d\n```"
    "\x7binvalid\x7d" rfl rfl⟩

/-- The creation-order successor of each sub-state. -/
def nextCreationStep : String → String
  | "weapon" => "skill"
  | "skill" => "tool"
  | "tool" => "complete"
  | s => s

theorem dictHas_dictInsert (d : List (String × String)) (k v k' : String) :
    dictHas (dictInsert d k v) k' = (k' == k || dictHas d k') := by
  rw [Bool.eq_iff_iff]
  unfold dictInsert dictHas
  simp only [Bool.or_eq_true, beq_iff_eq]
  split
  next hk =>
    simp only [List.any_eq_true, beq_iff_eq] at hk ⊢
    constructor
    · rintro ⟨x, hmem, hkey⟩
      rcases List.mem_map.mp hmem with ⟨x0, hmem0, rfl⟩
      by_cases h0 : x0.1 = k
      · left
        simp only [h0, if_pos rfl] at hkey
        exact hkey.symm
      · right
        refine ⟨x0, hmem0, ?_⟩
        simp only [if_neg h0] at hkey
        exact hkey
    · rintro (rfl | ⟨x, hmem, hkey⟩)
      · rcases hk with ⟨x0, hmem0, h0⟩
        exact ⟨(k', v), List.mem_map.mpr ⟨x0, hmem0, by simp [h0]⟩, rfl⟩
      · by_cases h0 : x.1 = k
        · refine ⟨(k, v), List.mem_map.mpr ⟨x, hmem, by simp [h0]⟩, ?_⟩
          rw [← hkey]
          exact h0.symm
        · exact ⟨x, List.mem_map.mpr ⟨x, hmem, by simp [h0]⟩, hkey⟩
  next hk =>
    simp only [List.any_append, List.any_eq_true, Bool.or_eq_true, beq_iff_eq,
      List.mem_singleton]
    constructor
    · rintro (⟨x, hmem, hkey⟩ | ⟨x, rfl, hkey⟩)
      · exact Or.inr ⟨x, hmem, hkey⟩
      · exact Or.inl hkey.symm
    · rintro (rfl | ⟨x, hmem, hkey⟩)
      · exact Or.inr ⟨(k', v), rfl, rfl⟩
      · exact Or.inl ⟨x, hmem, hkey⟩

theorem get_character_choices_append (store : Store) (sid ct c : String) (t : Nat)
    (hlen : (store.filter (fun p => p.session_id == sid && p.typ == "character_choice")).length ≤ 9) :
    get_character_choices false (store_character_choice false store sid ct c t) sid
      = dictInsert (get_character_choices false store sid) ct c := by
  unfold get_character_choices store_character_choice
  simp only [Bool.false_eq_true, if_false, List.filter_append, List.filter_cons,
    List.filter_nil, beq_self_eq_true, Bool.and_self, if_pos]
  rw [List.take_of_length_le (by rw [List.length_append]; simp; omega),
    List.take_of_length_le (Nat.le_trans hlen (by norm_num)), List.foldl_append]
  rfl

/-- C7: the character-creation state query returns "weapon" / "skill" /
"tool" / "complete" according to which choices are stored, and — for any
session whose choices were stored in creation order — storing the choice
for the current sub-state advances the state by exactly one step. -/
theorem C7_creation_state_machine (store : Store) (sid v : String) (t : Nat)
    (hlen : (store.filter (fun p => p.session_id == sid && p.typ == "character_choice")).length ≤ 9)
    (hso : dictHas (get_character_choices false store sid) "skill" = true →
      dictHas (get_character_choices false store sid) "weapon" = true)
    (hto : dictHas (get_character_choices false store sid) "tool" = true →
      dictHas (get_character_choices false store sid) "skill" = true) :
    (get_character_creation_state false store sid = "weapon"
      ↔ dictHas (get_character_choices false store sid) "weapon" = false)
    ∧ (get_character_creation_state false store sid = "skill"
      ↔ dictHas (get_character_choices false store sid) "weapon" = true
        ∧ dictHas (get_character_choices false store sid) "skill" = false)
    ∧ (get_character_creation_state false store sid = "tool"
      ↔ dictHas (get_character_choices false store sid) "weapon" = true
        ∧ dictHas (get_character_choices false store sid) "skill" = true
        ∧ dictHas (get_character_choices false store sid) "tool" = false)
    ∧ (get_character_creation_state false store sid = "complete"
      ↔ dictHas (get_character_choices false store sid) "weapon" = true
        ∧ dictHas (get_character_choices false store sid) "skill" = true
        ∧ dictHas (get_character_choices false store sid) "tool" = true)
    ∧ (get_character_creation_state false store sid ≠ "complete" →
        get_character_creation_state false
            (store_character_choice false store sid
              (get_character_creation_state false store sid) v t) sid
          = nextCreationStep (get_character_creation_state false store sid)) := by
  have hins : ∀ ct, get_character_choices false (store_character_choice false store sid ct v t) sid
      = dictInsert (get_character_choices false store sid) ct v :=
    fun ct => get_character_choices_append store sid ct v t hlen
  unfold get_character_creation_state
  cases hW : dictHas (get_character_choices false store sid) "weapon" <;>
    cases hS : dictHas (get_character_choices false store sid) "skill" <;>
      cases hT : dictHas (get_character_choices false store sid) "tool" <;>
        simp_all [creation_state_of, nextCreationStep, dictHas_dictInsert]

/-- Witness for C7 on the fresh (empty) session store. -/
theorem C7_creation_state_machine_witness :
    (get_character_creation_state false [] "s1" = "weapon"
      ↔ dictHas (get_character_choices false [] "s1") "weapon" = false)
    ∧ (get_character_creation_state false [] "s1" = "skill"
      ↔ dictHas (get_character_choices false [] "s1") "weapon" = true
        ∧ dictHas (get_character_choices false [] "s1") "skill" = false)
    ∧ (get_character_creation_state false [] "s1" = "tool"
      ↔ dictHas (get_character_choices false [] "s1") "weapon" = true
        ∧ dictHas (get_character_choices false [] "s1") "skill" = true
        ∧ dictHas (get_character_choices false [] "s1") "tool" = false)
    ∧ (get_character_creation_state false [] "s1" = "complete"
      ↔ dictHas (get_character_choices false [] "s1") "weapon" = true
        ∧ dictHas (get_character_choices false [] "s1") "skill" = true
        ∧ dictHas (get_character_choices false [] "s1") "tool" = true)
    ∧ (get_character_creation_state false [] "s1" ≠ "complete" →
        get_character_creation_state false
            (store_character_choice false [] "s1"
              (get_character_creation_state false [] "s1") "Sword" 5) "s1"
          = nextCreationStep (get_character_creation_state false [] "s1")) :=
  C7_creation_state_machine [] "s1" "Sword" 5 (by decide) (by decide) (by decide)

/-- C8: on a fresh session, appending a human message and then an ai
message (at nondecreasing timestamps) and reading the messages back
yields exactly those two messages in that order. -/
theorem C8_two_messages_roundtrip (sid h a : String) (t1 t2 : Nat) (hle : t1 ≤ t2) :
    messages false (add_message false (add_message false [] sid (Msg.human h) t1)
        sid (Msg.ai a) t2) sid
      = [Msg.human h, Msg.ai a] := by
  simp [messages, add_message, sortByTs, insertByTs, hle, List.take_of_length_le]

/-- Witness for C8 at concrete contents and timestamps. -/
theorem C8_two_messages_roundtrip_witness :
    messages false (add_message false (add_message false [] "s1" (Msg.human "hello") 1)
        "s1" (Msg.ai "welcome") 2) "s1"
      = [Msg.human "hello", Msg.ai "welcome"] :=
  C8_two_messages_roundtrip "s1" "hello" "welcome" 1 2 (by decide)

/-- A session store that does hold a stored character name. -/
def c9store : Store :=
  [{ session_id := "s1", message := "Character name: Mira", typ := "metadata",
     timestamp := 3, character_name := some "Mira" }]

/-- Counterexample to C9 as stated: on a storage error,
`get_character_name` returns the default name "Elara" — a non-empty
string, not an empty result and not a boolean failure (and it masks the
stored name "Mira"). -/
theorem C9_counterexample :
    get_character_name true c9store "s1" = "Elara"
      ∧ get_character_name false c9store "s1" = "Mira"
      ∧ ¬ ("Elara" = "") := by
  exact ⟨rfl, rfl, by decide⟩

/-- C9 (amended): every store operation catches storage-backend errors;
reads degrade to a fixed fallback (empty list, empty dict, `None`,
`False`, or the default name "Elara"), writes leave the store unchanged,
and each fallback coincides with the operation's error-free result on an
empty session, so callers observe no exception and no distinguishable
error kind. -/
theorem C9_amended_storage_error_fallbacks (store : Store) (sid : String) (m : Msg)
    (nm v ct sI sN : String) (t : Nat) :
    messages true store sid = []
    ∧ get_character_choices true store sid = []
    ∧ get_story_selection true store sid = none
    ∧ has_existing_messages true store sid = false
    ∧ get_character_name true store sid = "Elara"
    ∧ add_message true store sid m t = store
    ∧ store_character_name true store sid nm t = store
    ∧ store_story_selection true store sid sI sN t = store
    ∧ store_character_choice true store sid ct v t = store
    ∧ messages true store sid = messages false [] sid
    ∧ get_character_choices true store sid = get_character_choices false [] sid
    ∧ get_story_selection true store sid = get_story_selection false [] sid
    ∧ has_existing_messages true store sid = has_existing_messages false [] sid
    ∧ get_character_name true store sid = get_character_name false [] sid := by
  and_intros <;> rfl

theorem mem_insertByTs (p q : QPoint) (l : List QPoint) :
    q ∈ insertByTs p l ↔ q = p ∨ q ∈ l := by
  induction l with
  | nil => simp [insertByTs]
  | cons x xs ih =>
    unfold insertByTs
    split
    · simp [List.mem_cons]
    · simp only [List.mem_cons, ih]
      tauto

theorem mem_sortByTs (q : QPoint) (l : List QPoint) : q ∈ sortByTs l ↔ q ∈ l := by
  induction l with
  | nil => simp [sortByTs]
  | cons x xs ih => simp [sortByTs, mem_insertByTs, ih]

/-- C10: the reconstructed message list classifies every stored record
whose `type` is not "human" as an ai message — metadata records stored
in the same session reappear in the chat history as ai messages. -/
theorem C10_nonhuman_records_become_ai (store : Store) (sid : String) (p : QPoint)
    (hmem : p ∈ store) (hsid : p.session_id = sid) (htyp : ¬ p.typ = "human")
    (hlen : (store.filter (fun q => q.session_id == sid)).length ≤ 1000) :
    Msg.ai p.message ∈ messages false store sid := by
  unfold messages
  simp only [Bool.false_eq_true, if_false]
  rw [List.take_of_length_le hlen]
  refine List.mem_map.mpr ⟨p, ?_, ?_⟩
  · rw [mem_sortByTs]
    exact List.mem_filter.mpr ⟨hmem, by simp [hsid]⟩
  · simp [htyp]

/-- A store holding one character-name metadata record. -/
def c10store : Store :=
  [{ session_id := "s2", message := "Character name: Rex", typ := "metadata",
     timestamp := 1, character_name := some "Rex" }]

/-- Witness for C10: the stored character-name metadata record shows up
in the reconstructed history as an ai message. -/
theorem C10_nonhuman_records_become_ai_witness :
    Msg.ai "Character name: Rex" ∈ messages false c10store "s2" :=
  C10_nonhuman_records_become_ai c10store "s2"
    { session_id := "s2", message := "Character name: Rex", typ := "metadata",
      timestamp := 1, character_name := some "Rex" }
    (by decide) (by decide) (by decide) (by decide)
